import Mathlib

/-!
Shallow embedding of `jq6500.py`, the MicroPython serial driver for the
JQ6500 MP3 module (class `Player`).

Modelling conventions:
* A byte is a `Nat`; a byte string is a `List Nat`.
* The UART link is modelled by a `UART` record: `rx` is the script of byte
  strings returned by successive `uart.read()` / `uart.read(4)` calls (a read
  finding no pending data returns the empty byte string, which is how the
  driver's own `len(b) > 0` test treats absent data), and `tx` is the list of
  byte strings written so far, in order.
* `time.sleep` and `print` calls are console/timing effects with no influence
  on the data behaviour and are not modelled.
* A Python exception (the `assert` in `set_volume`, the `ValueError` from
  `int(b, 16)`) is modelled with `Except PyErr`; an operation that can raise
  returns `Except PyErr α × UART`, the second component being the link state
  at the moment the exception escapes (writes already performed remain).
-/

/-- Python exceptions that the driver itself can raise. -/
inductive PyErr where
  | assertionError
  | valueError
  deriving DecidableEq, Repr

/-- ASCII whitespace bytes accepted by Python `int` around a numeral. -/
def isSpaceByte (c : Nat) : Bool :=
  c = 32 || c = 9 || c = 10 || c = 11 || c = 12 || c = 13

/-- Value of an ASCII hexadecimal digit byte, if it is one. -/
def hexDigitVal (c : Nat) : Option Nat :=
  if 48 ≤ c ∧ c ≤ 57 then some (c - 48)
  else if 97 ≤ c ∧ c ≤ 102 then some (c - 87)
  else if 65 ≤ c ∧ c ≤ 70 then some (c - 55)
  else none

/-- Hex digits after the first one: a single underscore may separate two
digits, never leads, trails, or doubles (Python numeral grammar). -/
def parseHexRest (cs : List Nat) (acc : Nat) : Option Nat :=
  match cs with
  | [] => some acc
  | 95 :: c :: rest =>
    match hexDigitVal c with
    | some d => parseHexRest rest (16 * acc + d)
    | none => none
  | [95] => none
  | c :: rest =>
    match hexDigitVal c with
    | some d => parseHexRest rest (16 * acc + d)
    | none => none

/-- A nonempty run of hex digits with optional single underscores between
digits; must start with a digit. -/
def parseHexCore (cs : List Nat) : Option Nat :=
  match cs with
  | [] => none
  | c :: rest =>
    match hexDigitVal c with
    | some d => parseHexRest rest d
    | none => none

/-- Python `int(b, 16)` on a byte string: optional surrounding ASCII
whitespace, optional sign, optional `0x`/`0X` prefix (after which one leading
underscore is allowed), then hex digits with optional single underscores
between digits.  `none` models the `ValueError` raise. -/
def pyIntBase16 (b : List Nat) : Option Int :=
  let s := List.reverse (List.dropWhile isSpaceByte
    (List.reverse (List.dropWhile isSpaceByte b)))
  let signed : Int × List Nat :=
    match s with
    | 43 :: rest => (1, rest)
    | 45 :: rest => (-1, rest)
    | _ => (1, s)
  let prefixed : Bool × List Nat :=
    match signed.2 with
    | 48 :: 120 :: rest => (true, rest)
    | 48 :: 88 :: rest => (true, rest)
    | _ => (false, signed.2)
  let core : Option Nat :=
    match prefixed.1, prefixed.2 with
    | true, 95 :: rest => parseHexCore rest
    | _, _ => parseHexCore prefixed.2
  core.map (fun n => signed.1 * (n : Int))

/-- Python `bytes.isdigit`: nonempty and every byte is an ASCII decimal
digit. -/
def bytesIsdigit (b : List Nat) : Bool :=
  !b.isEmpty && b.all (fun c => 48 ≤ c && c ≤ 57)

/-- Python `int(b)` on a decimal digit string (the only shape that reaches it
in `get_status`, guarded by `isdigit`). -/
def parseDecDigits (b : List Nat) : Nat :=
  b.foldl (fun a c => 10 * a + (c - 48)) 0

/-- The serial link: `rx` scripts the byte strings returned by successive
reads, `tx` records the byte strings written, in order. -/
structure UART where
  rx : List (List Nat)
  tx : List (List Nat)
  deriving DecidableEq, Repr

/-- `uart.read()`: return the next scripted byte string (empty if the script
is exhausted, i.e. no data is pending). -/
def UART.read (u : UART) : List Nat × UART :=
  match u.rx with
  | [] => ([], u)
  | r :: rest => (r, { u with rx := rest })

/-- `uart.read(4)`: like `read`, truncated to at most 4 bytes. -/
def UART.read4 (u : UART) : List Nat × UART :=
  let p := UART.read u
  (p.1.take 4, p.2)

/-- `uart.write(bytes(data))`: append the byte string to the output trace. -/
def UART.write (data : List Nat) (u : UART) : UART :=
  { u with tx := u.tx ++ [data] }

namespace Player

def EQ_NORMAL : Int := 0
def EQ_POP : Int := 1
def EQ_ROCK : Int := 2
def EQ_JAZZ : Int := 3
def EQ_CLASSIC : Int := 4
def EQ_BASS : Int := 5

def SRC_SDCARD : Int := 1
def SRC_BUILTIN : Int := 4

def LOOP_ALL : Int := 0
def LOOP_FOLDER : Int := 1
def LOOP_ONE : Int := 2
def LOOP_RAM : Int := 3
def LOOP_ONE_STOP : Int := 4
def LOOP_NONE : Int := 4

def STATUS_STOPPED : Int := 0
def STATUS_PLAYING : Int := 1
def STATUS_PAUSED : Int := 2

/-- `Player.write_bytes`: frame the payload `b` as
`[0x7E, len(b) + 1] ++ b ++ [0xEF]`, flush pending input
(`self.uart.read()`), and write the frame. -/
def write_bytes (b : List Nat) (u : UART) : UART :=
  let message_length := b.length + 1
  let data := [0x7E, message_length] ++ b ++ [0xEF]
  let u1 := (UART.read u).2
  UART.write data u1

/-- `Player.read_bytes`: read up to 4 bytes; if nonempty, `int(b, 16)`
(raising `ValueError` on a non-numeral), else return `-1`. -/
def read_bytes (u : UART) : Except PyErr Int × UART :=
  let p := UART.read4 u
  if p.1.length > 0 then
    match pyIntBase16 p.1 with
    | some v => (Except.ok v, p.2)
    | none => (Except.error PyErr.valueError, p.2)
  else
    (Except.ok (-1), p.2)

/-- `Player.play`. -/
def play (u : UART) : UART :=
  write_bytes [0x0D] u

/-- `Player.pause`. -/
def pause (u : UART) : UART :=
  write_bytes [0x0E] u

/-- `Player.next`. -/
def next (u : UART) : UART :=
  write_bytes [0x01] u

/-- `Player.prev`. -/
def prev (u : UART) : UART :=
  write_bytes [0x02] u

/-- `Player.next_folder`. -/
def next_folder (u : UART) : UART :=
  write_bytes [0x0F, 0x01] u

/-- `Player.prev_folder`. -/
def prev_folder (u : UART) : UART :=
  write_bytes [0x0F, 0x00] u

/-- `Player.play_by_index`: big-endian 16-bit split of the FAT index. -/
def play_by_index (file_index : Nat) (u : UART) : UART :=
  write_bytes [0x03, (file_index / 256) % 256, file_index % 256] u

/-- `Player.play_by_number`. -/
def play_by_number (folder_number file_number : Nat) (u : UART) : UART :=
  write_bytes [0x12, folder_number % 256, file_number % 256] u

/-- `Player.volume_up`. -/
def volume_up (u : UART) : UART :=
  write_bytes [0x04] u

/-- `Player.volume_down`. -/
def volume_down (u : UART) : UART :=
  write_bytes [0x05] u

/-- `Player.set_volume`: `assert(0 <= level <= 30)` then write the frame; a
failed assert raises before anything is written. -/
def set_volume (level : Int) (u : UART) : Except PyErr Unit × UART :=
  if 0 ≤ level ∧ level ≤ 30 then
    (Except.ok (), write_bytes [0x06, level.toNat] u)
  else
    (Except.error PyErr.assertionError, u)

/-- `Player.set_equalizer`. -/
def set_equalizer (mode : Nat) (u : UART) : UART :=
  write_bytes [0x07, mode] u

/-- `Player.set_looping`. -/
def set_looping (mode : Nat) (u : UART) : UART :=
  write_bytes [0x11, mode] u

/-- `Player.set_source`. -/
def set_source (source : Nat) (u : UART) : UART :=
  write_bytes [0x09, source] u

/-- `Player.sleep_device` (`Player.sleep` in the source; renamed to avoid the
clash with `time.sleep`, which is not modelled). -/
def sleep_device (u : UART) : UART :=
  write_bytes [0x0A] u

/-- `Player.reset`: write the soft-reset frame; the 500 ms settle delay has
no data behaviour. -/
def reset (u : UART) : UART :=
  write_bytes [0x0C] u

/-- `Player.get_status`: write the status query, read the full reply, parse
it as a decimal integer when it is a digit string, else return `-1`; this
path never raises. -/
def get_status (u : UART) : Int × UART :=
  let u1 := write_bytes [0x42] u
  let p := UART.read u1
  if bytesIsdigit p.1 then
    ((parseDecDigits p.1 : Int), p.2)
  else
    (-1, p.2)

/-- `Player.get_volume`. -/
def get_volume (u : UART) : Except PyErr Int × UART :=
  read_bytes (write_bytes [0x43] u)

/-- `Player.get_equalizer`. -/
def get_equalizer (u : UART) : Except PyErr Int × UART :=
  read_bytes (write_bytes [0x44] u)

/-- `Player.get_looping`. -/
def get_looping (u : UART) : Except PyErr Int × UART :=
  read_bytes (write_bytes [0x45] u)

/-- `Player.get_file_count`: opcode 0x47 for the SD card, 0x49 otherwise
(built-in flash). -/
def get_file_count (source : Int) (u : UART) : Except PyErr Int × UART :=
  if source = SRC_SDCARD then
    read_bytes (write_bytes [0x47] u)
  else
    read_bytes (write_bytes [0x49] u)

/-- `Player.get_folder_count`: query opcode 0x53 only for the SD card;
built-in flash returns 0 without touching the link. -/
def get_folder_count (source : Int) (u : UART) : Except PyErr Int × UART :=
  if source = SRC_SDCARD then
    read_bytes (write_bytes [0x53] u)
  else
    (Except.ok 0, u)

/-- `Player.get_file_index`: opcode 0x4B (SD, returned as-is) or 0x4D
(built-in flash, returned with `+ 1`). -/
def get_file_index (source : Int) (u : UART) : Except PyErr Int × UART :=
  if source = SRC_SDCARD then
    read_bytes (write_bytes [0x4B] u)
  else
    let p := read_bytes (write_bytes [0x4D] u)
    match p.1 with
    | Except.ok count => (Except.ok (count + 1), p.2)
    | Except.error e => (Except.error e, p.2)

/-- `Player.get_position`. -/
def get_position (u : UART) : Except PyErr Int × UART :=
  read_bytes (write_bytes [0x50] u)

/-- `Player.get_length`. -/
def get_length (u : UART) : Except PyErr Int × UART :=
  read_bytes (write_bytes [0x51] u)

/-- `Player.get_name`: raw reply bytes, no decoding. -/
def get_name (u : UART) : List Nat × UART :=
  UART.read (write_bytes [0x52] u)

/-- `Player.get_version`. -/
def get_version (u : UART) : Except PyErr Int × UART :=
  read_bytes (write_bytes [0x46] u)

/-- `Player.read_buffer`. -/
def read_buffer (u : UART) : List Nat × UART :=
  UART.read u

/-- `Player.__init__` after opening the UART: flush stale input
(`self.uart.read()`), soft-reset the device, then set the initial volume
(whose range assert can raise). -/
def init (volume : Int) (u : UART) : Except PyErr Unit × UART :=
  let u1 := (UART.read u).2
  let u2 := reset u1
  set_volume volume u2

/-- `Player.clean_up`: issue a final reset; releasing the UART resource
(`deinit`) has no data behaviour and is not modelled. -/
def clean_up (u : UART) : UART :=
  reset u

/-- `Player.play_pause`: query status, then play if paused or stopped, pause
if playing, otherwise do nothing. -/
def play_pause (u : UART) : UART :=
  let p := get_status u
  if p.1 = STATUS_PAUSED ∨ p.1 = STATUS_STOPPED then
    play p.2
  else if p.1 = STATUS_PLAYING then
    pause p.2
  else
    p.2

/-- `Player.restart`: save the current volume, mute, skip to the next track,
pause it, restore the saved volume, then step back to the previous track. -/
def restart (u : UART) : Except PyErr Unit × UART :=
  let p := get_volume u
  match p.1 with
  | Except.error e => (Except.error e, p.2)
  | Except.ok old_volume =>
    let q := set_volume 0 p.2
    match q.1 with
    | Except.error e => (Except.error e, q.2)
    | Except.ok _ =>
      let u3 := next q.2
      let u4 := pause u3
      let r := set_volume old_volume u4
      match r.1 with
      | Except.error e => (Except.error e, r.2)
      | Except.ok _ => (Except.ok (), prev r.2)

end Player

/-! Helper lemmas shared by the claim theorems. -/

lemma UART.read_tx (u : UART) : (UART.read u).2.tx = u.tx := by
  cases h : u.rx <;> simp [UART.read, h]

lemma UART.read4_tx (u : UART) : (UART.read4 u).2.tx = u.tx := by
  simp [UART.read4, UART.read_tx]

lemma Player.write_bytes_tx (b : List Nat) (u : UART) :
    (Player.write_bytes b u).tx = u.tx ++ [[0x7E, b.length + 1] ++ b ++ [0xEF]] := by
  simp [Player.write_bytes, UART.write, UART.read_tx]

lemma Player.read_bytes_snd (u : UART) :
    (Player.read_bytes u).2 = (UART.read4 u).2 := by
  unfold Player.read_bytes
  dsimp only
  split
  · split <;> rfl
  · rfl

lemma Player.read_bytes_tx (u : UART) :
    (Player.read_bytes u).2.tx = u.tx := by
  rw [Player.read_bytes_snd, UART.read4_tx]

lemma pyIntBase16_nil : pyIntBase16 [] = none := rfl

lemma Player.read_bytes_of_decode (u : UART) (v : Int)
    (hv : pyIntBase16 (UART.read4 u).1 = some v) :
    Player.read_bytes u = (Except.ok v, (UART.read4 u).2) := by
  have hne : (UART.read4 u).1 ≠ [] := by
    intro h
    rw [h, pyIntBase16_nil] at hv
    exact Option.noConfusion hv
  unfold Player.read_bytes
  dsimp only
  rw [if_pos (by simpa [List.length_pos] using hne), hv]

lemma Player.set_volume_ok (v : Int) (u : UART) (h0 : 0 ≤ v) (h30 : v ≤ 30) :
    Player.set_volume v u = (Except.ok (), Player.write_bytes [0x06, v.toNat] u) := by
  rw [Player.set_volume, if_pos ⟨h0, h30⟩]

lemma Player.get_status_tx (u : UART) :
    (Player.get_status u).2.tx = u.tx ++ [[0x7E, 0x02, 0x42, 0xEF]] := by
  unfold Player.get_status
  dsimp only
  split <;> simp [UART.read_tx, Player.write_bytes_tx]

lemma Player.get_volume_tx (u : UART) :
    (Player.get_volume u).2.tx = u.tx ++ [[0x7E, 0x02, 0x43, 0xEF]] := by
  unfold Player.get_volume
  rw [Player.read_bytes_tx, Player.write_bytes_tx]
  simp

lemma UART.read4_fst_write_bytes (b stale r : List Nat) (rest : List (List Nat))
    (tx0 : List (List Nat)) :
    (UART.read4 (Player.write_bytes b { rx := stale :: r :: rest, tx := tx0 })).1
      = r.take 4 := by
  simp [Player.write_bytes, UART.write, UART.read, UART.read4]

lemma Player.read_bytes_empty (u : UART) (h : (UART.read4 u).1 = []) :
    Player.read_bytes u = (Except.ok (-1), (UART.read4 u).2) := by
  unfold Player.read_bytes
  dsimp only
  rw [if_neg (by simp [h])]

lemma Player.get_file_index_builtin_decode (stale r : List Nat)
    (rest tx0 : List (List Nat)) (V : Int) (h : pyIntBase16 (r.take 4) = some V) :
    (Player.get_file_index Player.SRC_BUILTIN
        { rx := stale :: r :: rest, tx := tx0 }).1 = Except.ok (V + 1) := by
  unfold Player.get_file_index
  rw [if_neg (by decide : ¬(Player.SRC_BUILTIN = Player.SRC_SDCARD))]
  dsimp only
  rw [Player.read_bytes_of_decode _ V (by rw [UART.read4_fst_write_bytes]; exact h)]

lemma Player.get_file_index_sd_decode (stale r : List Nat)
    (rest tx0 : List (List Nat)) (V : Int) (h : pyIntBase16 (r.take 4) = some V) :
    (Player.get_file_index Player.SRC_SDCARD
        { rx := stale :: r :: rest, tx := tx0 }).1 = Except.ok V := by
  unfold Player.get_file_index
  rw [if_pos rfl]
  rw [Player.read_bytes_of_decode _ V (by rw [UART.read4_fst_write_bytes]; exact h)]

/-! The claim theorems. -/

/-- C1: every frame written by `write_bytes` with argument list `b` is exactly
`[0x7E, len(b) + 1] ++ b ++ [0xEF]`; for a zero-argument opcode the frame is
`[0x7E, 0x02, op, 0xEF]`; the frame starts with `0x7E` and ends with
`0xEF`. -/
theorem write_bytes_frame (b : List Nat) (u : UART) :
    (Player.write_bytes b u).tx = u.tx ++ [[0x7E, b.length + 1] ++ b ++ [0xEF]]
    ∧ (∀ op : Nat, (Player.write_bytes [op] u).tx = u.tx ++ [[0x7E, 0x02, op, 0xEF]])
    ∧ (∃ f, (Player.write_bytes b u).tx = u.tx ++ [f]
        ∧ f.head? = some 0x7E ∧ f.getLast? = some 0xEF) := by
  refine ⟨Player.write_bytes_tx b u, ?_, ?_⟩
  · intro op
    simpa using Player.write_bytes_tx [op] u
  · refine ⟨[0x7E, b.length + 1] ++ b ++ [0xEF], Player.write_bytes_tx b u, rfl, ?_⟩
    exact List.getLast?_concat _

/-- C2 counterexample: a nonempty, non-numeric reply (the single byte `z`)
makes `read_bytes` raise `ValueError`; it does not return the sentinel
`-1`. -/
theorem read_bytes_nonnumeric_raises :
    (Player.read_bytes { rx := [[0x7A]], tx := [] }).1 = Except.error PyErr.valueError
    ∧ (Player.read_bytes { rx := [[0x7A]], tx := [] }).1 ≠ Except.ok (-1) :=
  ⟨rfl, fun h => Except.noConfusion h⟩

/-- C2 amended: `read_bytes` reads up to 4 bytes; an empty reply returns the
sentinel `-1`; a reply that parses as a base-16 numeral returns its value; a
nonempty reply that does not parse raises `ValueError` (it is not mapped to
`-1`). -/
theorem read_bytes_decode_spec (u : UART) :
    ((UART.read4 u).1 = [] → (Player.read_bytes u).1 = Except.ok (-1))
    ∧ (∀ v : Int, pyIntBase16 (UART.read4 u).1 = some v →
        (Player.read_bytes u).1 = Except.ok v)
    ∧ ((UART.read4 u).1 ≠ [] → pyIntBase16 (UART.read4 u).1 = none →
        (Player.read_bytes u).1 = Except.error PyErr.valueError)
    ∧ (UART.read4 u).1.length ≤ 4 := by
  refine ⟨?_, ?_, ?_, ?_⟩
  · intro h
    unfold Player.read_bytes
    dsimp only
    rw [if_neg (by simp [h])]
  · intro v hv
    rw [Player.read_bytes_of_decode u v hv]
  · intro hne hnone
    unfold Player.read_bytes
    dsimp only
    rw [if_pos (by simpa [List.length_pos] using hne), hnone]
  · simp [UART.read4]

/-- C2 witness: a reply of ASCII `5` decodes to 5, an empty reply to `-1`,
and ASCII `z` raises. -/
theorem read_bytes_decode_spec_witness :
    (Player.read_bytes { rx := [[0x35]], tx := [] }).1 = Except.ok 5
    ∧ (Player.read_bytes { rx := [[]], tx := [] }).1 = Except.ok (-1)
    ∧ (Player.read_bytes { rx := [[0x7A]], tx := [] }).1
        = Except.error PyErr.valueError :=
  ⟨(read_bytes_decode_spec { rx := [[0x35]], tx := [] }).2.1 5 (by decide),
   (read_bytes_decode_spec { rx := [[]], tx := [] }).1 (by decide),
   (read_bytes_decode_spec { rx := [[0x7A]], tx := [] }).2.2.1
     (by decide) (by decide)⟩

/-- C3 counterexample: constructing with volume 35 raises the range assert,
but only after the soft-reset frame `[0x7E, 0x02, 0x0C, 0xEF]` has already
been written to the link. -/
theorem init_validates_after_reset_cex :
    (Player.init 35 { rx := [], tx := [] }).1 = Except.error PyErr.assertionError
    ∧ (Player.init 35 { rx := [], tx := [] }).2.tx = [[0x7E, 0x02, 0x0C, 0xEF]] :=
  ⟨rfl, rfl⟩

/-- C3 amended: construction with an out-of-range initial volume fails with
the range assert (`InvalidArgument`), but the soft-reset frame has already
been sent by then: the constructor resets first and validates the volume only
in the subsequent `set_volume` call. -/
theorem init_out_of_range_spec (volume : Int) (u : UART)
    (h : ¬(0 ≤ volume ∧ volume ≤ 30)) :
    (Player.init volume u).1 = Except.error PyErr.assertionError
    ∧ (Player.init volume u).2.tx = u.tx ++ [[0x7E, 0x02, 0x0C, 0xEF]] := by
  unfold Player.init
  dsimp only
  rw [Player.set_volume, if_neg h]
  exact ⟨rfl, by simp [Player.reset, Player.write_bytes_tx, UART.read_tx]⟩

/-- C3 witness: volume 35 on a fresh link. -/
theorem init_out_of_range_witness :
    (Player.init 35 { rx := [], tx := [] }).1 = Except.error PyErr.assertionError
    ∧ (Player.init 35 { rx := [], tx := [] }).2.tx = [[0x7E, 0x02, 0x0C, 0xEF]] :=
  init_out_of_range_spec 35 { rx := [], tx := [] } (by decide)

/-- C4: `set_volume L` with `0 ≤ L ≤ 30` writes exactly the frame
`[0x7E, 0x03, 0x06, L, 0xEF]`; outside the range it raises the assert and
leaves the link untouched. -/
theorem set_volume_spec (L : Int) (u : UART) :
    (0 ≤ L ∧ L ≤ 30 →
      (Player.set_volume L u).1 = Except.ok ()
      ∧ (Player.set_volume L u).2.tx
          = u.tx ++ [[0x7E, 0x03, 0x06, L.toNat, 0xEF]])
    ∧ (¬(0 ≤ L ∧ L ≤ 30) →
      (Player.set_volume L u).1 = Except.error PyErr.assertionError
      ∧ (Player.set_volume L u).2 = u) := by
  constructor
  · intro h
    rw [Player.set_volume_ok L u h.1 h.2]
    exact ⟨rfl, by simpa using Player.write_bytes_tx [0x06, L.toNat] u⟩
  · intro h
    rw [Player.set_volume, if_neg h]
    exact ⟨rfl, rfl⟩

/-- C4 witness: level 5 produces the frame, level 35 raises without
writing. -/
theorem set_volume_spec_witness :
    ((Player.set_volume 5 { rx := [], tx := [] }).1 = Except.ok ()
      ∧ (Player.set_volume 5 { rx := [], tx := [] }).2.tx
          = [[0x7E, 0x03, 0x06, 5, 0xEF]])
    ∧ ((Player.set_volume 35 { rx := [], tx := [] }).1
          = Except.error PyErr.assertionError
      ∧ (Player.set_volume 35 { rx := [], tx := [] }).2
          = { rx := [], tx := [] }) :=
  ⟨by simpa using (set_volume_spec 5 { rx := [], tx := [] }).1 (by decide),
   (set_volume_spec 35 { rx := [], tx := [] }).2 (by decide)⟩

/-- C5: `get_status` parses a decimal digit-string reply as a decimal
integer (ASCII `5` gives 5) and returns `-1` for any other reply, empty or
non-digit; its return type is total, so no reply can make it raise. -/
theorem get_status_spec (stale s : List Nat) (rest tx0 : List (List Nat)) :
    (bytesIsdigit s = true →
      (Player.get_status { rx := stale :: s :: rest, tx := tx0 }).1
        = (parseDecDigits s : Int))
    ∧ (bytesIsdigit s = false →
      (Player.get_status { rx := stale :: s :: rest, tx := tx0 }).1 = -1) := by
  constructor <;> intro h <;>
    simp [Player.get_status, Player.write_bytes, UART.read, UART.write, h]

/-- C5 witness: reply ASCII `5` gives status 5; reply `z` and the empty
reply give `-1`. -/
theorem get_status_spec_witness :
    (Player.get_status { rx := [[], [0x35]], tx := [] }).1 = 5
    ∧ (Player.get_status { rx := [[], [0x7A]], tx := [] }).1 = -1
    ∧ (Player.get_status { rx := [[], []], tx := [] }).1 = -1 :=
  ⟨((get_status_spec [] [0x35] [] []).1 (by decide)).trans (by decide),
   (get_status_spec [] [0x7A] [] []).2 (by decide),
   (get_status_spec [] [] [] []).2 (by decide)⟩

/-- C6: when the raw device reply decodes to `V`, `get_file_index` on
built-in flash (opcode 0x4D) returns `V + 1` while on the SD card (opcode
0x4B) it returns `V` unchanged. -/
theorem get_file_index_offset (stale r : List Nat) (rest tx0 : List (List Nat))
    (V : Int) (h : pyIntBase16 (r.take 4) = some V) :
    (Player.get_file_index Player.SRC_BUILTIN
        { rx := stale :: r :: rest, tx := tx0 }).1 = Except.ok (V + 1)
    ∧ (Player.get_file_index Player.SRC_SDCARD
        { rx := stale :: r :: rest, tx := tx0 }).1 = Except.ok V :=
  ⟨Player.get_file_index_builtin_decode stale r rest tx0 V h,
   Player.get_file_index_sd_decode stale r rest tx0 V h⟩

/-- C6 witness: a reply of ASCII `5` gives 6 on built-in flash and 5 on the
SD card. -/
theorem get_file_index_offset_witness :
    (Player.get_file_index Player.SRC_BUILTIN
        { rx := [[], [0x35]], tx := [] }).1 = Except.ok 6
    ∧ (Player.get_file_index Player.SRC_SDCARD
        { rx := [[], [0x35]], tx := [] }).1 = Except.ok 5 := by
  have h := get_file_index_offset [] [0x35] [] [] 5 (by decide)
  exact ⟨h.1.trans (by norm_num), h.2⟩

/-- C7: `get_folder_count` on built-in flash returns 0 and leaves the link
state (both directions) completely untouched; on the SD card it writes the
folder-count query frame with opcode 0x53. -/
theorem get_folder_count_spec (u : UART) :
    Player.get_folder_count Player.SRC_BUILTIN u = (Except.ok 0, u)
    ∧ (Player.get_folder_count Player.SRC_SDCARD u).2.tx
        = u.tx ++ [[0x7E, 0x02, 0x53, 0xEF]] := by
  constructor
  · rw [Player.get_folder_count, if_neg (by decide)]
  · rw [Player.get_folder_count, if_pos rfl, Player.read_bytes_tx,
      Player.write_bytes_tx]
    simp

/-- C8: when the volume query decodes to an in-range volume `V`, `restart`
extends the output trace with exactly the volume-query frame followed by the
five command frames SetVolume(0), Next, Pause, SetVolume(V), Prev, restoring
`V` exactly. -/
theorem restart_spec (u : UART) (V : Int)
    (hV : (Player.get_volume u).1 = Except.ok V) (h0 : 0 ≤ V) (h30 : V ≤ 30) :
    (Player.restart u).1 = Except.ok ()
    ∧ (Player.restart u).2.tx = u.tx ++
        [[0x7E, 0x02, 0x43, 0xEF],
         [0x7E, 0x03, 0x06, 0, 0xEF],
         [0x7E, 0x02, 0x01, 0xEF],
         [0x7E, 0x02, 0x0E, 0xEF],
         [0x7E, 0x03, 0x06, V.toNat, 0xEF],
         [0x7E, 0x02, 0x02, 0xEF]] := by
  unfold Player.restart
  dsimp only
  rw [hV]
  dsimp only
  rw [Player.set_volume_ok 0 _ (by decide) (by decide)]
  dsimp only
  rw [Player.set_volume_ok V _ h0 h30]
  dsimp only
  refine ⟨rfl, ?_⟩
  simp [Player.next, Player.pause, Player.prev, Player.write_bytes_tx,
    Player.get_volume_tx]

/-- C8 witness: a volume reply of ASCII `5` yields the six-frame trace with
volume 5 restored. -/
theorem restart_spec_witness :
    (Player.restart { rx := [[], [0x35]], tx := [] }).1 = Except.ok ()
    ∧ (Player.restart { rx := [[], [0x35]], tx := [] }).2.tx =
        [[0x7E, 0x02, 0x43, 0xEF],
         [0x7E, 0x03, 0x06, 0, 0xEF],
         [0x7E, 0x02, 0x01, 0xEF],
         [0x7E, 0x02, 0x0E, 0xEF],
         [0x7E, 0x03, 0x06, 5, 0xEF],
         [0x7E, 0x02, 0x02, 0xEF]] := by
  have h := restart_spec { rx := [[], [0x35]], tx := [] } 5 rfl (by decide) (by decide)
  exact ⟨h.1, h.2.trans (by decide)⟩

/-- C9: `play_pause` first sends the status query; on status 2 (paused) or 0
(stopped) it then emits exactly the Play frame (0x0D), on status 1 (playing)
exactly the Pause frame (0x0E), and on any other status, including the
sentinel -1, it emits nothing further. -/
theorem play_pause_spec (u : UART) :
    ((Player.get_status u).1 = 2 ∨ (Player.get_status u).1 = 0 →
      (Player.play_pause u).tx
        = (Player.get_status u).2.tx ++ [[0x7E, 0x02, 0x0D, 0xEF]])
    ∧ ((Player.get_status u).1 = 1 →
      (Player.play_pause u).tx
        = (Player.get_status u).2.tx ++ [[0x7E, 0x02, 0x0E, 0xEF]])
    ∧ ((Player.get_status u).1 ≠ 2 → (Player.get_status u).1 ≠ 0 →
        (Player.get_status u).1 ≠ 1 →
      Player.play_pause u = (Player.get_status u).2)
    ∧ (Player.get_status u).2.tx = u.tx ++ [[0x7E, 0x02, 0x42, 0xEF]] := by
  refine ⟨?_, ?_, ?_, Player.get_status_tx u⟩
  · intro h
    unfold Player.play_pause
    dsimp only
    rw [if_pos (by simpa [Player.STATUS_PAUSED, Player.STATUS_STOPPED] using h)]
    simp [Player.play, Player.write_bytes_tx]
  · intro h
    unfold Player.play_pause
    dsimp only
    rw [if_neg (by simp [Player.STATUS_PAUSED, Player.STATUS_STOPPED, h]),
      if_pos (by simpa [Player.STATUS_PLAYING] using h)]
    simp [Player.pause, Player.write_bytes_tx]
  · intro h2 h0 h1
    unfold Player.play_pause
    dsimp only
    rw [if_neg (by simp [Player.STATUS_PAUSED, Player.STATUS_STOPPED, h2, h0]),
      if_neg (by simp [Player.STATUS_PLAYING, h1])]

/-- C9 witness: status reply `2` emits Play, `1` emits Pause, `z` (status
-1) emits nothing after the query. -/
theorem play_pause_spec_witness :
    (Player.play_pause { rx := [[], [0x32]], tx := [] }).tx
        = [[0x7E, 0x02, 0x42, 0xEF], [0x7E, 0x02, 0x0D, 0xEF]]
    ∧ (Player.play_pause { rx := [[], [0x31]], tx := [] }).tx
        = [[0x7E, 0x02, 0x42, 0xEF], [0x7E, 0x02, 0x0E, 0xEF]]
    ∧ (Player.play_pause { rx := [[], [0x7A]], tx := [] }).tx
        = [[0x7E, 0x02, 0x42, 0xEF]] :=
  ⟨((play_pause_spec { rx := [[], [0x32]], tx := [] }).1
      (Or.inl (by decide))).trans (by decide),
   ((play_pause_spec { rx := [[], [0x31]], tx := [] }).2.1
      (by decide)).trans (by decide),
   (congrArg UART.tx ((play_pause_spec { rx := [[], [0x7A]], tx := [] }).2.2.1
      (by decide) (by decide) (by decide))).trans (by decide)⟩

/-- C10 counterexample: with source built-in flash an absent reply returns 0
while a raw device reply of ASCII `0` returns 1, so the two are
distinguishable, contrary to the claim's final clause. -/
theorem get_file_index_builtin_cex :
    (Player.get_file_index Player.SRC_BUILTIN { rx := [[], []], tx := [] }).1
        = Except.ok 0
    ∧ (Player.get_file_index Player.SRC_BUILTIN
        { rx := [[], [0x30]], tx := [] }).1 = Except.ok 1
    ∧ (Player.get_file_index Player.SRC_BUILTIN { rx := [[], []], tx := [] }).1
        ≠ (Player.get_file_index Player.SRC_BUILTIN
            { rx := [[], [0x30]], tx := [] }).1 := by
  have h1 : (Player.get_file_index Player.SRC_BUILTIN
      { rx := [[], []], tx := [] }).1 = Except.ok 0 := by
    unfold Player.get_file_index
    rw [if_neg (by decide : ¬(Player.SRC_BUILTIN = Player.SRC_SDCARD))]
    dsimp only
    rw [Player.read_bytes_empty _ (by simp [UART.read4_fst_write_bytes])]
    norm_num
  have h2 : (Player.get_file_index Player.SRC_BUILTIN
      { rx := [[], [0x30]], tx := [] }).1 = Except.ok 1 :=
    (Player.get_file_index_builtin_decode [] [0x30] [] [] 0 (by decide)).trans
      (by norm_num)
  refine ⟨h1, h2, ?_⟩
  rw [h1, h2]
  intro hcontra
  injection hcontra with hv
  exact absurd hv (by decide)

/-- C10 amended: with source built-in flash an empty device reply returns 0
rather than -1 (the +1 offset is applied to the sentinel as well); the
absent-reply return 0 is nonetheless distinguishable from a raw device reply
of 0, which returns 1. -/
theorem get_file_index_builtin_empty (stale : List Nat)
    (rest tx0 : List (List Nat)) :
    (Player.get_file_index Player.SRC_BUILTIN
        { rx := stale :: [] :: rest, tx := tx0 }).1 = Except.ok 0
    ∧ (Player.get_file_index Player.SRC_BUILTIN
        { rx := stale :: [] :: rest, tx := tx0 }).1 ≠ Except.ok (-1)
    ∧ (Player.get_file_index Player.SRC_BUILTIN
        { rx := stale :: [0x30] :: rest, tx := tx0 }).1 = Except.ok 1 := by
  have h1 : (Player.get_file_index Player.SRC_BUILTIN
      { rx := stale :: [] :: rest, tx := tx0 }).1 = Except.ok 0 := by
    unfold Player.get_file_index
    rw [if_neg (by decide : ¬(Player.SRC_BUILTIN = Player.SRC_SDCARD))]
    dsimp only
    rw [Player.read_bytes_empty _ (by simp [UART.read4_fst_write_bytes])]
    norm_num
  refine ⟨h1, ?_, ?_⟩
  · rw [h1]
    intro hcontra
    injection hcontra with hv
    exact absurd hv (by decide)
  · exact (Player.get_file_index_builtin_decode stale [0x30] rest tx0 0
      (by decide)).trans (by norm_num)
